import Mathlib

/-!
Verification development for the Heston Monte-Carlo option pricer
(src/docs/heston.c).

Embedding conventions:
* C `double` arithmetic is modelled over an arbitrary `LinearOrderedField R`
  (intended instantiation: `ℝ`).  The transcendental library functions
  (`exp`, `sqrt`, `log`, `sin`, `cos`, `erf`) are passed as explicit function
  parameters so that all definitions stay computable; theorems that need the
  actual real functions instantiate them with `Real.exp`, `Real.sqrt`, ....
* `fmax(x, 0.0)` is `max x 0`.
* C `int` is modelled as `ℤ` (the program never approaches overflow),
  C `unsigned long` LCG state as `ℕ` reduced mod `2^31` by the `& 0x7fffffff`
  mask in the source.
* An IEEE division whose divisor is zero produces NaN/Inf; a double value
  that may be NaN in the source is modelled as `Option R` with `none` for
  NaN/Inf (see `ieee_div`).
* The stream of standard-normal draws consumed by the simulators is modelled
  as a function `Z : ℕ → R`; call number `k` of `normal_random` returns `Z k`.
  The generator itself (`simple_random`, `normal_random`, the cached spare
  and reseeding) is embedded separately and verified by its own claims.
* `qsort` with the `compare_paths` comparator is modelled as a deterministic
  comparison sort (`List.insertionSort`) over the total preorder induced by
  `final_price`; the spec allows any deterministic tie order.
-/

namespace Heston

/-- MAX_PERCENTILE_PATHS, src/docs/heston.c line 9. -/
def MAX_PERCENTILE_PATHS : ℕ := 1000

/-- PERCENTILE_TRACKING_LIMIT, src/docs/heston.c line 10. -/
def PERCENTILE_TRACKING_LIMIT : ℤ := 1000

/-- One step of the LCG from `simple_random` (line 48):
`rand_seed = (rand_seed * 1103515245 + 12345) & 0x7fffffff`. -/
def lcg_next (s : ℕ) : ℕ := (s * 1103515245 + 12345) % 2147483648

section Rng

variable {R : Type} [LinearOrderedField R]

/-- `simple_random` (lines 47-50): updates the LCG state and returns
`(double)rand_seed / 0x7fffffff` for the updated state. -/
def simple_random (R : Type) [LinearOrderedField R] (s : ℕ) : ℕ × R :=
  (lcg_next s, ((lcg_next s : ℕ) : R) / (2147483647 : R))

/-- The mutable state of the random source: the LCG seed (line 45) and the
static Box-Muller spare slot of `normal_random` (lines 53-54). -/
structure RngState (R : Type) where
  seed : ℕ
  has_spare : Bool
  spare : R
deriving DecidableEq

/-- `normal_random` (lines 52-67): Box-Muller with a cached spare.  The
library functions `sqrt`, `log`, `cos`, `sin` and the constant `M_PI` are
parameters. -/
def normal_random (rsqrt rlog rcos rsin : R → R) (pi : R)
    (st : RngState R) : R × RngState R :=
  if st.has_spare then
    (st.spare, { st with has_spare := false })
  else
    let p1 := simple_random R st.seed
    let p2 := simple_random R p1.1
    let mag := rsqrt (-2 * rlog p1.2)
    let sp := mag * rcos (2 * pi * p2.2)
    (mag * rsin (2 * pi * p2.2), ⟨p2.1, true, sp⟩)

/-- The effect of `initialize_simulation` on the random source (line 189):
`rand_seed = (unsigned long)time(NULL);`.  Only the seed is assigned; the
static spare slot of `normal_random` is not touched. -/
def reseed_rng (st : RngState R) (t : ℕ) : RngState R :=
  { st with seed := t }

end Rng

section Simulator

variable {R : Type} [LinearOrderedField R]

/-- The pair `(S[i], v[i])` produced by the loop of `simulate_single_path`
(lines 91-104), with `dt` precomputed and the normal draws given by the
stream `Z` (step `i+1` consumes draws `Z (2*i)` and `Z (2*i+1)`). -/
def path_state (rexp rsqrt : R → R) (S0 v0 r theta kappa xi rho dt : R)
    (Z : ℕ → R) : ℕ → R × R
  | 0 => (S0, v0)
  | i + 1 =>
    let prev := path_state rexp rsqrt S0 v0 r theta kappa xi rho dt Z i
    let Z_S := Z (2 * i)
    let Z_v := rho * Z_S + rsqrt (1 - rho * rho) * Z (2 * i + 1)
    let v_prev := max prev.2 0
    let v_i := prev.2 + kappa * (theta - v_prev) * dt +
      Z_v * xi * rsqrt (v_prev * dt) +
      (xi * xi / 4) * ((Z_v * Z_v - 1) * dt)
    let S_i := prev.1 * rexp ((r - prev.2 / 2) * dt +
      Z_S * rsqrt (max prev.2 0 * dt))
    (S_i, v_i)

/-- `simulate_single_path` (lines 82-108): the returned array `S[0..N]`. -/
def simulate_single_path (rexp rsqrt : R → R)
    (S0 v0 r theta kappa xi rho T : R) (N : ℕ) (Z : ℕ → R) : List R :=
  (List.range (N + 1)).map fun i =>
    (path_state rexp rsqrt S0 v0 r theta kappa xi rho (T / (N : R)) Z i).1

/-- The body of the loop of `simulate_final_price` (lines 117-133), mapping
the state `(S, v)` through iteration `i+1`. -/
def final_loop (rexp rsqrt : R → R) (r theta kappa xi rho dt : R)
    (Z : ℕ → R) (Sv : R × R) (i : ℕ) : R × R :=
  let Z_S := Z (2 * i)
  let Z_v := rho * Z_S + rsqrt (1 - rho * rho) * Z (2 * i + 1)
  let v_prev := Sv.2
  let v_clamped := max Sv.2 0
  let v_new := Sv.2 + kappa * (theta - v_clamped) * dt +
    Z_v * xi * rsqrt (v_clamped * dt) +
    (xi * xi / 4) * ((Z_v * Z_v - 1) * dt)
  let S_new := Sv.1 * rexp ((r - v_prev / 2) * dt +
    Z_S * rsqrt (max v_prev 0 * dt))
  (S_new, v_new)

/-- `simulate_final_price` (lines 111-136). -/
def simulate_final_price (rexp rsqrt : R → R)
    (S0 v0 r theta kappa xi rho T : R) (N : ℕ) (Z : ℕ → R) : R :=
  ((List.range N).foldl
    (final_loop rexp rsqrt r theta kappa xi rho (T / (N : R)) Z) (S0, v0)).1

end Simulator

section BlackScholes

variable {R : Type} [LinearOrderedField R]

/-- `norm_cdf` (lines 70-72). -/
def norm_cdf (rerf rsqrt : R → R) (x : R) : R :=
  1 / 2 * (1 + rerf (x / rsqrt 2))

/-- `black_scholes_call` (lines 75-79). -/
def black_scholes_call (rexp rlog rerf rsqrt : R → R)
    (S0 K r T sigma : R) : R :=
  let d1 := (rlog (S0 / K) + (r + 1 / 2 * sigma * sigma) * T) / (sigma * rsqrt T)
  let d2 := d1 - sigma * rsqrt T
  S0 * norm_cdf rerf rsqrt d1 - K * rexp (-(r * T)) * norm_cdf rerf rsqrt d2

end BlackScholes

section Driver

variable {R : Type} [LinearOrderedField R]

/-- `struct PricePath` (lines 13-16): a sampled path plus the cached copy of
its terminal price. -/
structure PricePath (R : Type) where
  path : List R
  final_price : R
deriving DecidableEq

/-- The total preorder induced by the `compare_paths` comparator
(lines 139-146): ascending order of `final_price`. -/
def compare_paths (a b : PricePath R) : Prop :=
  a.final_price ≤ b.final_price

instance : DecidableRel (α := PricePath R) compare_paths := fun a b =>
  inferInstanceAs (Decidable (a.final_price ≤ b.final_price))

instance : IsTotal (PricePath R) compare_paths :=
  ⟨fun a b => le_total a.final_price b.final_price⟩

instance : IsTrans (PricePath R) compare_paths :=
  ⟨fun _ _ _ hab hbc => le_trans hab hbc⟩

/-- The `qsort` call of line 217, modelled as a deterministic comparison
sort with the `compare_paths` order. -/
def sort_paths (l : List (PricePath R)) : List (PricePath R) :=
  List.insertionSort compare_paths l

/-- IEEE double division as performed at line 241: a zero divisor yields
NaN (or infinity), modelled as `none`. -/
def ieee_div (x y : R) : Option R :=
  if y = 0 then none else some (x / y)

/-- `struct SimulationState` (lines 19-39).  `paths_stored` is
`all_paths.length`; `current_option_price` is a double that may become NaN,
hence `Option R`; `draw_cursor` is the number of `normal_random` draws the
run has consumed from the abstract normal stream. -/
structure SimulationState (R : Type) where
  S0 : R
  v0 : R
  r : R
  theta : R
  kappa : R
  xi : R
  rho : R
  T : R
  K : R
  N : ℕ
  simulation_count : ℤ
  tracking_phase : Bool
  all_paths : List (PricePath R)
  min_idx : ℕ
  p25_idx : ℕ
  p50_idx : ℕ
  p75_idx : ℕ
  max_idx : ℕ
  total_payoffs : R
  current_option_price : Option R
  black_scholes_price : R
  draw_cursor : ℕ
deriving DecidableEq

/-- `initialize_simulation` (lines 149-190), acting on the previous global
state: frees the stored paths, assigns the parameters, resets the counters
and the phase, and recomputes the Black-Scholes reference.  The percentile
index fields are not assigned by the C function and are carried over.  (Its
reseeding side effect on the random source is `reseed_rng`.) -/
def init_simulation (rexp rlog rerf rsqrt : R → R)
    (S0 v0 r theta kappa xi rho T K : R) (N : ℕ)
    (s : SimulationState R) : SimulationState R :=
  { s with
    S0 := S0, v0 := v0, r := r, theta := theta, kappa := kappa, xi := xi,
    rho := rho, T := T, K := K, N := N,
    simulation_count := 0, tracking_phase := true, all_paths := [],
    total_payoffs := 0, current_option_price := some 0,
    black_scholes_price :=
      black_scholes_call rexp rlog rerf rsqrt S0 K r T (rsqrt v0),
    draw_cursor := 0 }

/-- Lines 202-206: store the simulated path (with its terminal price
`path[N]`) if storage capacity remains. -/
def store_path (path : List R) (s : SimulationState R) : SimulationState R :=
  if s.all_paths.length < MAX_PERCENTILE_PATHS then
    { s with all_paths := s.all_paths ++ [⟨path, path.getD s.N 0⟩] }
  else s

/-- Lines 213-225: when the pre-increment count has reached
`PERCENTILE_TRACKING_LIMIT - 1`, leave the tracking phase, sort the stored
cohort by terminal price, and compute the five percentile indices. -/
def tracking_exit_check (s : SimulationState R) : SimulationState R :=
  if PERCENTILE_TRACKING_LIMIT - 1 ≤ s.simulation_count then
    let sorted := sort_paths s.all_paths
    { s with
      tracking_phase := false, all_paths := sorted,
      min_idx := 0,
      p25_idx := sorted.length / 4,
      p50_idx := sorted.length / 2,
      p75_idx := 3 * sorted.length / 4,
      max_idx := sorted.length - 1 }
  else s

/-- One iteration of the `for` loop of `run_simulation_batch`
(lines 195-237). -/
def batch_iter (rexp rsqrt : R → R) (Z : ℕ → R)
    (s : SimulationState R) : SimulationState R :=
  if s.tracking_phase = true ∧
      s.simulation_count < PERCENTILE_TRACKING_LIMIT then
    let path := simulate_single_path rexp rsqrt s.S0 s.v0 s.r s.theta
      s.kappa s.xi s.rho s.T s.N (fun k => Z (s.draw_cursor + k))
    let s1 := store_path path s
    let s2 := { s1 with
      total_payoffs := s1.total_payoffs + max (path.getD s.N 0 - s.K) 0 }
    let s3 := tracking_exit_check s2
    { s3 with
      simulation_count := s3.simulation_count + 1,
      draw_cursor := s.draw_cursor + 2 * s.N }
  else
    let fp := simulate_final_price rexp rsqrt s.S0 s.v0 s.r s.theta
      s.kappa s.xi s.rho s.T s.N (fun k => Z (s.draw_cursor + k))
    { s with
      total_payoffs := s.total_payoffs + max (fp - s.K) 0,
      simulation_count := s.simulation_count + 1,
      draw_cursor := s.draw_cursor + 2 * s.N }

/-- `run_simulation_batch` (lines 194-242): the loop runs
`max batch_size 0` times, then the running option price is recomputed as
`exp(-r*T) * (total_payoffs / simulation_count)` (an IEEE division). -/
def run_simulation_batch (rexp rsqrt : R → R) (Z : ℕ → R)
    (batch_size : ℤ) (s : SimulationState R) : SimulationState R :=
  let s1 := (batch_iter rexp rsqrt Z)^[batch_size.toNat] s
  { s1 with
    current_option_price :=
      Option.map (fun q => rexp (-(s1.r * s1.T)) * q)
        (ieee_div s1.total_payoffs ((s1.simulation_count : ℤ) : R)) }

/-- A sequence of `run_simulation_batch` calls. -/
def run_batches (rexp rsqrt : R → R) (Z : ℕ → R) (bs : List ℤ)
    (s : SimulationState R) : SimulationState R :=
  bs.foldl (fun t b => run_simulation_batch rexp rsqrt Z b t) s

/-- `get_simulation_count` (lines 246-248). -/
def get_simulation_count (s : SimulationState R) : ℤ :=
  s.simulation_count

/-- `get_option_price` (lines 252-254). -/
def get_option_price (s : SimulationState R) : Option R :=
  s.current_option_price

/-- `get_black_scholes_price` (lines 258-260). -/
def get_black_scholes_price (s : SimulationState R) : R :=
  s.black_scholes_price

/-- `get_time_steps` (lines 282-284). -/
def get_time_steps (s : SimulationState R) : ℕ :=
  s.N

/-- `is_tracking_phase` (lines 288-290). -/
def is_tracking_phase (s : SimulationState R) : Bool :=
  s.tracking_phase

/-- `get_percentile_path` (lines 264-278): `NULL` is `none`. -/
def get_percentile_path (s : SimulationState R) (percentile : ℤ) :
    Option (List R) :=
  if s.tracking_phase = false ∧ 0 < s.all_paths.length then
    match percentile with
    | 0 => some ((s.all_paths.getD s.min_idx ⟨[], 0⟩).path)
    | 25 => some ((s.all_paths.getD s.p25_idx ⟨[], 0⟩).path)
    | 50 => some ((s.all_paths.getD s.p50_idx ⟨[], 0⟩).path)
    | 75 => some ((s.all_paths.getD s.p75_idx ⟨[], 0⟩).path)
    | 100 => some ((s.all_paths.getD s.max_idx ⟨[], 0⟩).path)
    | _ => none
  else none

/-- The zero-initialized global `sim_state` (line 42). -/
def zero_state : SimulationState ℚ :=
  { S0 := 0, v0 := 0, r := 0, theta := 0, kappa := 0, xi := 0, rho := 0,
    T := 0, K := 0, N := 0, simulation_count := 0, tracking_phase := false,
    all_paths := [], min_idx := 0, p25_idx := 0, p50_idx := 0, p75_idx := 0,
    max_idx := 0, total_payoffs := 0, current_option_price := some 0,
    black_scholes_price := 0, draw_cursor := 0 }

/-- Inductive invariant of the simulation driver, established by
`init_simulation` and preserved by every loop iteration: the phase flag is
TRACKING exactly while the count is below the tracking limit, the number of
stored paths is `min(count, capacity)`, the count is nonnegative, and once
the phase is FAST the five percentile indices carry the documented
formulas over the stored cohort. -/
def StateInv (s : SimulationState R) : Prop :=
  s.tracking_phase = decide (s.simulation_count < PERCENTILE_TRACKING_LIMIT) ∧
  s.all_paths.length
    = min s.simulation_count.toNat MAX_PERCENTILE_PATHS ∧
  0 ≤ s.simulation_count ∧
  (s.tracking_phase = false →
    s.min_idx = 0 ∧
    s.p25_idx = s.all_paths.length / 4 ∧
    s.p50_idx = s.all_paths.length / 2 ∧
    s.p75_idx = 3 * s.all_paths.length / 4 ∧
    s.max_idx = s.all_paths.length - 1)

/-- A concrete driver state one simulation short of the tracking limit,
with two stored paths, used to exercise the phase transition. -/
def pre_transition_state : SimulationState ℚ :=
  { zero_state with
    S0 := 4, tracking_phase := true, simulation_count := 999,
    all_paths := [⟨[5], 5⟩, ⟨[3], 3⟩] }

/-- The state produced by running one batch iteration on
`pre_transition_state` (which fires the phase transition). -/
def post_transition_state : SimulationState ℚ :=
  batch_iter id id (fun _ => 0) pre_transition_state

/-- A concrete FAST-phase state with one stored path, used to exercise
`get_percentile_path`. -/
def fast_state : SimulationState ℚ :=
  { zero_state with all_paths := [⟨[1, 2], 2⟩] }

/-- The tail of the tracking branch of the loop body: run the
tracking-exit check on the post-storage state `w`, then increment the
count and advance the draw cursor. -/
def bump_after_exit (w : SimulationState R) (c : ℕ) : SimulationState R :=
  { tracking_exit_check w with
    simulation_count := (tracking_exit_check w).simulation_count + 1,
    draw_cursor := c }

end Driver

section SimulatorTheorems

variable {R : Type} [LinearOrderedField R]

/-- The fast simulator's loop state after `n` iterations coincides with the
full simulator's `(S[n], v[n])`. -/
theorem foldl_final_loop_eq_path_state (rexp rsqrt : R → R)
    (S0 v0 r theta kappa xi rho dt : R) (Z : ℕ → R) (n : ℕ) :
    (List.range n).foldl
        (final_loop rexp rsqrt r theta kappa xi rho dt Z) (S0, v0)
      = path_state rexp rsqrt S0 v0 r theta kappa xi rho dt Z n := by
  induction n with
  | zero => rfl
  | succ n ih =>
    rw [List.range_succ, List.foldl_append, ih]
    rfl

/-- C7: `simulate_final_price` returns the last element (index `N`) of the
sequence produced by `simulate_single_path`, for every parameter set and
every fixed sequence of normal draws. -/
theorem simulate_final_price_eq_last_of_single_path
    (rexp rsqrt : R → R) (S0 v0 r theta kappa xi rho T : R) (N : ℕ)
    (Z : ℕ → R) :
    simulate_final_price rexp rsqrt S0 v0 r theta kappa xi rho T N Z
      = (simulate_single_path rexp rsqrt S0 v0 r theta kappa xi rho T N Z).getD
          N 0 := by
  unfold simulate_final_price simulate_single_path
  rw [foldl_final_loop_eq_path_state]
  rw [List.getD_eq_getElem?_getD, List.getElem?_map,
    List.getElem?_range (Nat.lt_succ_self N)]
  rfl

/-- C8: in both path simulators, step `i+1` updates the variance by the
Milstein formula `v + κ(θ - max v 0)·dt + Z_v·ξ·sqrt(max v 0 · dt) +
(ξ²/4)·(Z_v² - 1)·dt` with correlated shock
`Z_v = ρ·Z_S + sqrt(1-ρ²)·Z_indep` and the unclamped previous variance as
the base term. -/
theorem variance_update_milstein (rexp rsqrt : R → R)
    (S0 v0 r theta kappa xi rho dt : R) (Z : ℕ → R) (i : ℕ) :
    (path_state rexp rsqrt S0 v0 r theta kappa xi rho dt Z (i + 1)).2
        = (path_state rexp rsqrt S0 v0 r theta kappa xi rho dt Z i).2 +
          kappa * (theta -
            max (path_state rexp rsqrt S0 v0 r theta kappa xi rho dt Z i).2 0)
            * dt +
          (rho * Z (2 * i) + rsqrt (1 - rho * rho) * Z (2 * i + 1)) * xi *
            rsqrt
              (max (path_state rexp rsqrt S0 v0 r theta kappa xi rho dt Z i).2 0
                * dt) +
          (xi * xi / 4) *
            (((rho * Z (2 * i) + rsqrt (1 - rho * rho) * Z (2 * i + 1)) *
                (rho * Z (2 * i) + rsqrt (1 - rho * rho) * Z (2 * i + 1)) - 1)
              * dt) ∧
    ((List.range (i + 1)).foldl
        (final_loop rexp rsqrt r theta kappa xi rho dt Z) (S0, v0)).2
        = ((List.range i).foldl
            (final_loop rexp rsqrt r theta kappa xi rho dt Z) (S0, v0)).2 +
          kappa * (theta -
            max ((List.range i).foldl
              (final_loop rexp rsqrt r theta kappa xi rho dt Z) (S0, v0)).2 0)
            * dt +
          (rho * Z (2 * i) + rsqrt (1 - rho * rho) * Z (2 * i + 1)) * xi *
            rsqrt
              (max ((List.range i).foldl
                (final_loop rexp rsqrt r theta kappa xi rho dt Z) (S0, v0)).2 0
                * dt) +
          (xi * xi / 4) *
            (((rho * Z (2 * i) + rsqrt (1 - rho * rho) * Z (2 * i + 1)) *
                (rho * Z (2 * i) + rsqrt (1 - rho * rho) * Z (2 * i + 1)) - 1)
              * dt) := by
  constructor
  · rfl
  · rw [List.range_succ, List.foldl_append]
    rfl

/-- C1 (amended): in both path simulators, step `i+1` updates the price as
`S · exp((r - v/2)·dt + Z_S·sqrt(max v 0 · dt))` where `v` is the
pre-update variance: the drift term uses the UNCLAMPED stored variance and
only the diffusion term clamps it (src/docs/heston.c lines 103 and 132). -/
theorem price_update_pre_variance_unclamped_drift (rexp rsqrt : R → R)
    (S0 v0 r theta kappa xi rho dt : R) (Z : ℕ → R) (i : ℕ) :
    (path_state rexp rsqrt S0 v0 r theta kappa xi rho dt Z (i + 1)).1
        = (path_state rexp rsqrt S0 v0 r theta kappa xi rho dt Z i).1 *
          rexp ((r -
              (path_state rexp rsqrt S0 v0 r theta kappa xi rho dt Z i).2 / 2)
              * dt +
            Z (2 * i) * rsqrt
              (max (path_state rexp rsqrt S0 v0 r theta kappa xi rho dt Z i).2 0
                * dt)) ∧
    ((List.range (i + 1)).foldl
        (final_loop rexp rsqrt r theta kappa xi rho dt Z) (S0, v0)).1
        = ((List.range i).foldl
            (final_loop rexp rsqrt r theta kappa xi rho dt Z) (S0, v0)).1 *
          rexp ((r -
              ((List.range i).foldl
                (final_loop rexp rsqrt r theta kappa xi rho dt Z) (S0, v0)).2
                / 2) * dt +
            Z (2 * i) * rsqrt
              (max ((List.range i).foldl
                (final_loop rexp rsqrt r theta kappa xi rho dt Z) (S0, v0)).2 0
                * dt)) := by
  constructor
  · rfl
  · rw [List.range_succ, List.foldl_append]
    rfl

/-- C1 counterexample: with parameters `S0=1, v0=0, r=0, θ=0, κ=0, ξ=2,
ρ=0, dt=1` and all normal draws zero, the variance after one step is `-1`,
and the price at step 2 computed by the code, `exp(1/2)`, differs from the
claimed formula that clamps the variance in the drift term, which yields
`exp(0) = 1`. -/
theorem price_drift_clamped_counterexample :
    ¬ ((path_state Real.exp Real.sqrt (1 : ℝ) 0 0 0 0 2 0 1 (fun _ => 0) 2).1
      = (path_state Real.exp Real.sqrt (1 : ℝ) 0 0 0 0 2 0 1 (fun _ => 0) 1).1
        * Real.exp ((0 -
            max (path_state Real.exp Real.sqrt (1 : ℝ) 0 0 0 0 2 0 1
              (fun _ => 0) 1).2 0 / 2) * 1 +
          0 * Real.sqrt
            (max (path_state Real.exp Real.sqrt (1 : ℝ) 0 0 0 0 2 0 1
              (fun _ => 0) 1).2 0 * 1))) := by
  have e1 : path_state Real.exp Real.sqrt (1 : ℝ) 0 0 0 0 2 0 1 (fun _ => 0) 1
      = (1, -1) := by
    rw [show (1 : ℕ) = 0 + 1 from rfl]
    simp only [path_state, Prod.mk.injEq]
    norm_num [Real.exp_zero]
  rw [show (2 : ℕ) = 1 + 1 from rfl]
  simp only [path_state, e1]
  norm_num [max_eq_right (show (-1 : ℝ) ≤ 0 by norm_num), Real.exp_zero,
    Real.exp_eq_one_iff]

end SimulatorTheorems

section RngTheorems

variable {R : Type} [LinearOrderedField R]

/-- C5 (amended): for every 31-bit seed, `simple_random` updates the state
to `(seed*1103515245 + 12345) mod 2^31` and returns the updated seed
divided by `2^31 - 1`, a value in the closed interval `[0, 1]`. -/
theorem simple_random_update_and_range (s : ℕ) (h : s < 2147483648) :
    (simple_random R s).1 = (s * 1103515245 + 12345) % 2147483648 ∧
    0 ≤ (simple_random R s).2 ∧ (simple_random R s).2 ≤ 1 := by
  refine ⟨rfl, div_nonneg (Nat.cast_nonneg _) (by norm_num), ?_⟩
  have hle : lcg_next s ≤ 2147483647 := by
    unfold lcg_next
    omega
  show ((lcg_next s : ℕ) : R) / (2147483647 : R) ≤ 1
  rw [div_le_one (by norm_num)]
  exact_mod_cast hle

/-- C5 witness: the amended statement evaluated at seed 0. -/
theorem simple_random_update_and_range_witness :
    (0 : ℕ) < 2147483648 ∧
    ((simple_random ℚ 0).1 = (0 * 1103515245 + 12345) % 2147483648 ∧
      0 ≤ (simple_random ℚ 0).2 ∧ (simple_random ℚ 0).2 ≤ 1) :=
  ⟨by norm_num, simple_random_update_and_range (R := ℚ) 0 (by norm_num)⟩

/-- C5 counterexample: from the 31-bit seed 230538014 the LCG moves to
state `2^31 - 1`, so `simple_random` returns exactly 1; the returned value
is not always strictly below 1. -/
theorem simple_random_returns_one_counterexample :
    (230538014 : ℕ) < 2147483648 ∧
    ¬ ((simple_random ℚ 230538014).2 < 1) := by
  have hstep : lcg_next 230538014 = 2147483647 := by decide
  constructor
  · norm_num
  · show ¬ (((lcg_next 230538014 : ℕ) : ℚ) / (2147483647 : ℚ) < 1)
    rw [hstep]
    norm_num

/-- C4 (code-bug demonstration): `initialize_simulation` reseeds the LCG
(line 189) but never clears the static Box-Muller spare slot of
`normal_random` (lines 53-54); a pending spare survives reseeding, and the
first draw after reseeding returns the stale spare cached under the
previous seed instead of being computed fresh. -/
theorem reseed_keeps_pending_spare (rsqrt rlog rcos rsin : R → R)
    (p : R) (st : RngState R) (t : ℕ) (h : st.has_spare = true) :
    (reseed_rng st t).has_spare = st.has_spare ∧
    (reseed_rng st t).spare = st.spare ∧
    (normal_random rsqrt rlog rcos rsin p (reseed_rng st t)).1 = st.spare := by
  refine ⟨rfl, rfl, ?_⟩
  simp [normal_random, reseed_rng, h]

/-- C4 witness: a concrete pending spare (42, cached under seed 7)
survives reseeding to 999 and is returned by the next draw. -/
theorem reseed_keeps_pending_spare_witness :
    (reseed_rng (⟨7, true, 42⟩ : RngState ℚ) 999).has_spare
        = (⟨7, true, 42⟩ : RngState ℚ).has_spare ∧
    (reseed_rng (⟨7, true, 42⟩ : RngState ℚ) 999).spare
        = (⟨7, true, 42⟩ : RngState ℚ).spare ∧
    (normal_random id id id id 0
        (reseed_rng (⟨7, true, 42⟩ : RngState ℚ) 999)).1
      = (⟨7, true, 42⟩ : RngState ℚ).spare :=
  reseed_keeps_pending_spare id id id id 0 ⟨7, true, 42⟩ 999 rfl

end RngTheorems

section DriverTheorems

variable {R : Type} [LinearOrderedField R]

theorem sort_paths_length (l : List (PricePath R)) :
    (sort_paths l).length = l.length := by
  simp [sort_paths]

theorem sort_paths_sorted (l : List (PricePath R)) :
    List.Sorted compare_paths (sort_paths l) :=
  List.sorted_insertionSort compare_paths l

/-- In a cohort sorted by terminal price, terminal prices are monotone in
the index. -/
theorem sorted_getD_final_price_mono (l : List (PricePath R))
    (hs : List.Sorted compare_paths l) {i j : ℕ} (hij : i ≤ j)
    (hj : j < l.length) :
    (l.getD i ⟨[], 0⟩).final_price ≤ (l.getD j ⟨[], 0⟩).final_price := by
  have hi : i < l.length := lt_of_le_of_lt hij hj
  rw [List.getD_eq_getElem?_getD, List.getD_eq_getElem?_getD,
    List.getElem?_eq_getElem hi, List.getElem?_eq_getElem hj,
    Option.getD_some, Option.getD_some]
  rcases eq_or_lt_of_le hij with rfl | hlt
  · exact le_refl _
  · have hp := List.pairwise_iff_get.mp hs ⟨i, hi⟩ ⟨j, hj⟩ hlt
    simpa [List.get_eq_getElem, compare_paths] using hp

theorem store_path_simulation_count (path : List R) (s : SimulationState R) :
    (store_path path s).simulation_count = s.simulation_count := by
  unfold store_path
  split <;> rfl

theorem store_path_tracking_phase (path : List R) (s : SimulationState R) :
    (store_path path s).tracking_phase = s.tracking_phase := by
  unfold store_path
  split <;> rfl

theorem store_path_length (path : List R) (s : SimulationState R) :
    (store_path path s).all_paths.length
      = if s.all_paths.length < MAX_PERCENTILE_PATHS then
          s.all_paths.length + 1
        else s.all_paths.length := by
  unfold store_path
  split <;> simp

theorem store_path_idx (path : List R) (s : SimulationState R) :
    (store_path path s).min_idx = s.min_idx ∧
    (store_path path s).p25_idx = s.p25_idx ∧
    (store_path path s).p50_idx = s.p50_idx ∧
    (store_path path s).p75_idx = s.p75_idx ∧
    (store_path path s).max_idx = s.max_idx := by
  unfold store_path
  split <;> exact ⟨rfl, rfl, rfl, rfl, rfl⟩

theorem tracking_exit_check_simulation_count (s : SimulationState R) :
    (tracking_exit_check s).simulation_count = s.simulation_count := by
  unfold tracking_exit_check
  split <;> rfl

/-- The transition action (lines 214-224) when the exit condition holds. -/
theorem tracking_exit_check_fires (s : SimulationState R)
    (h : PERCENTILE_TRACKING_LIMIT - 1 ≤ s.simulation_count) :
    (tracking_exit_check s).tracking_phase = false ∧
    (tracking_exit_check s).all_paths = sort_paths s.all_paths ∧
    (tracking_exit_check s).min_idx = 0 ∧
    (tracking_exit_check s).p25_idx = (sort_paths s.all_paths).length / 4 ∧
    (tracking_exit_check s).p50_idx = (sort_paths s.all_paths).length / 2 ∧
    (tracking_exit_check s).p75_idx
      = 3 * (sort_paths s.all_paths).length / 4 ∧
    (tracking_exit_check s).max_idx = (sort_paths s.all_paths).length - 1 := by
  unfold tracking_exit_check
  rw [if_pos h]
  exact ⟨rfl, rfl, rfl, rfl, rfl, rfl, rfl⟩

theorem tracking_exit_check_skips (s : SimulationState R)
    (h : ¬ PERCENTILE_TRACKING_LIMIT - 1 ≤ s.simulation_count) :
    tracking_exit_check s = s := by
  unfold tracking_exit_check
  rw [if_neg h]

theorem batch_iter_simulation_count (rexp rsqrt : R → R) (Z : ℕ → R)
    (s : SimulationState R) :
    (batch_iter rexp rsqrt Z s).simulation_count
      = s.simulation_count + 1 := by
  unfold batch_iter
  split
  · show (tracking_exit_check _).simulation_count + 1 = _
    rw [tracking_exit_check_simulation_count]
    show (store_path _ s).simulation_count + 1 = _
    rw [store_path_simulation_count]
  · rfl

/-- The tracking branch of the loop body preserves the driver invariant. -/
theorem tracking_branch_inv (path : List R) (c : ℕ) (s : SimulationState R)
    (h2 : s.all_paths.length
      = min s.simulation_count.toNat MAX_PERCENTILE_PATHS)
    (h3 : 0 ≤ s.simulation_count)
    (ht : s.tracking_phase = true)
    (hlt : s.simulation_count < PERCENTILE_TRACKING_LIMIT) :
    StateInv
      { tracking_exit_check
          { store_path path s with
            total_payoffs :=
              (store_path path s).total_payoffs
                + max (path.getD s.N 0 - s.K) 0 } with
        simulation_count :=
          (tracking_exit_check
            { store_path path s with
              total_payoffs :=
                (store_path path s).total_payoffs
                  + max (path.getD s.N 0 - s.K) 0 }).simulation_count + 1,
        draw_cursor := c } := by
  have hL : PERCENTILE_TRACKING_LIMIT = (1000 : ℤ) := rfl
  have hM : MAX_PERCENTILE_PATHS = 1000 := rfl
  set s1 := store_path path s with hs1
  set s2 := { s1 with
    total_payoffs := s1.total_payoffs + max (path.getD s.N 0 - s.K) 0 }
    with hs2
  have hc2 : s2.simulation_count = s.simulation_count := by
    rw [hs2]
    show s1.simulation_count = _
    rw [hs1, store_path_simulation_count]
  have hc2t : s2.tracking_phase = s.tracking_phase := by
    rw [hs2]
    show s1.tracking_phase = _
    rw [hs1, store_path_tracking_phase]
  have hc2l : s2.all_paths = s1.all_paths := by rw [hs2]
  by_cases hfire : PERCENTILE_TRACKING_LIMIT - 1 ≤ s2.simulation_count
  · obtain ⟨f1, f2, f3, f4, f5, f6, f7⟩ := tracking_exit_check_fires s2 hfire
    rw [hc2, hL] at hfire
    rw [hL] at hlt
    have hcnt : s.simulation_count = 999 := by omega
    have hsl : s.all_paths.length = 999 := by
      rw [h2, hM, hcnt]
      omega
    have hs1l : s1.all_paths.length = 1000 := by
      rw [hs1, store_path_length, hsl, hM]
      norm_num
    unfold StateInv
    refine ⟨?_, ?_, ?_, ?_⟩
    · show (tracking_exit_check s2).tracking_phase
        = decide ((tracking_exit_check s2).simulation_count + 1
            < PERCENTILE_TRACKING_LIMIT)
      rw [f1, tracking_exit_check_simulation_count, hc2, hcnt, hL]
      decide
    · show (tracking_exit_check s2).all_paths.length
        = min ((tracking_exit_check s2).simulation_count + 1).toNat
            MAX_PERCENTILE_PATHS
      rw [f2, sort_paths_length, hc2l, hs1l,
        tracking_exit_check_simulation_count, hc2, hcnt, hM]
      decide
    · show 0 ≤ (tracking_exit_check s2).simulation_count + 1
      rw [tracking_exit_check_simulation_count, hc2]
      omega
    · intro _
      refine ⟨f3, ?_, ?_, ?_, ?_⟩
      · show (tracking_exit_check s2).p25_idx
          = (tracking_exit_check s2).all_paths.length / 4
        rw [f4, f2]
      · show (tracking_exit_check s2).p50_idx
          = (tracking_exit_check s2).all_paths.length / 2
        rw [f5, f2]
      · show (tracking_exit_check s2).p75_idx
          = 3 * (tracking_exit_check s2).all_paths.length / 4
        rw [f6, f2]
      · show (tracking_exit_check s2).max_idx
          = (tracking_exit_check s2).all_paths.length - 1
        rw [f7, f2]
  · have hskip : tracking_exit_check s2 = s2 := tracking_exit_check_skips s2 hfire
    rw [hc2, hL] at hfire
    rw [hL] at hlt
    have hsmall : s.all_paths.length < MAX_PERCENTILE_PATHS := by
      rw [h2, hM]
      omega
    have hs1l : s1.all_paths.length = s.all_paths.length + 1 := by
      rw [hs1, store_path_length, if_pos hsmall]
    rw [hskip]
    unfold StateInv
    refine ⟨?_, ?_, ?_, ?_⟩
    · show s2.tracking_phase
        = decide (s2.simulation_count + 1 < PERCENTILE_TRACKING_LIMIT)
      rw [hc2t, ht, hc2, hL, eq_comm, decide_eq_true_eq]
      omega
    · show s2.all_paths.length
        = min (s2.simulation_count + 1).toNat MAX_PERCENTILE_PATHS
      rw [hc2l, hs1l, h2, hc2, hM]
      omega
    · show 0 ≤ s2.simulation_count + 1
      rw [hc2]
      omega
    · intro hfalse
      rw [hc2t, ht] at hfalse
      exact Bool.noConfusion hfalse

/-- Every iteration of the batch loop preserves the driver invariant. -/
theorem batch_iter_inv (rexp rsqrt : R → R) (Z : ℕ → R)
    (s : SimulationState R) (h : StateInv s) :
    StateInv (batch_iter rexp rsqrt Z s) := by
  obtain ⟨h1, h2, h3, h4⟩ := h
  unfold batch_iter
  split
  case isTrue hc =>
    exact tracking_branch_inv _ _ s h2 h3 hc.1 hc.2
  case isFalse hc =>
    have hL : PERCENTILE_TRACKING_LIMIT = (1000 : ℤ) := rfl
    have hM : MAX_PERCENTILE_PATHS = 1000 := rfl
    have htf : s.tracking_phase = false := by
      by_contra hb
      have hbt : s.tracking_phase = true := by
        cases hB : s.tracking_phase
        · exact absurd hB hb
        · rfl
      refine hc ⟨hbt, ?_⟩
      rw [hbt] at h1
      exact of_decide_eq_true h1.symm
    have hge : ¬ s.simulation_count < PERCENTILE_TRACKING_LIMIT := by
      rw [htf] at h1
      exact of_decide_eq_false h1.symm
    rw [hL] at hge
    unfold StateInv
    refine ⟨?_, ?_, ?_, ?_⟩
    · show s.tracking_phase
        = decide (s.simulation_count + 1 < PERCENTILE_TRACKING_LIMIT)
      rw [htf, hL, eq_comm, decide_eq_false_iff_not]
      omega
    · show s.all_paths.length
        = min (s.simulation_count + 1).toNat MAX_PERCENTILE_PATHS
      rw [h2, hM]
      omega
    · show 0 ≤ s.simulation_count + 1
      omega
    · intro _
      exact h4 htf

theorem iterate_batch_iter_inv (rexp rsqrt : R → R) (Z : ℕ → R) (n : ℕ)
    (s : SimulationState R) (h : StateInv s) :
    StateInv ((batch_iter rexp rsqrt Z)^[n] s) := by
  induction n with
  | zero => exact h
  | succ n ih =>
    rw [Function.iterate_succ_apply']
    exact batch_iter_inv rexp rsqrt Z _ ih

theorem run_simulation_batch_inv (rexp rsqrt : R → R) (Z : ℕ → R) (b : ℤ)
    (s : SimulationState R) (h : StateInv s) :
    StateInv (run_simulation_batch rexp rsqrt Z b s) := by
  obtain ⟨h1, h2, h3, h4⟩ := iterate_batch_iter_inv rexp rsqrt Z b.toNat s h
  exact ⟨h1, h2, h3, h4⟩

theorem run_batches_inv (rexp rsqrt : R → R) (Z : ℕ → R) (bs : List ℤ)
    (s : SimulationState R) (h : StateInv s) :
    StateInv (run_batches rexp rsqrt Z bs s) := by
  induction bs generalizing s with
  | nil => exact h
  | cons b bs ih =>
    exact ih _ (run_simulation_batch_inv rexp rsqrt Z b s h)

theorem init_simulation_inv (rexp rlog rerf rsqrt : R → R)
    (S0 v0 r theta kappa xi rho T K : R) (N : ℕ)
    (s : SimulationState R) :
    StateInv (init_simulation rexp rlog rerf rsqrt
      S0 v0 r theta kappa xi rho T K N s) := by
  unfold StateInv
  refine ⟨?_, ?_, ?_, ?_⟩
  · show (true : Bool) = decide ((0 : ℤ) < PERCENTILE_TRACKING_LIMIT)
    decide
  · show (List.length ([] : List (PricePath R)))
      = min (Int.toNat 0) MAX_PERCENTILE_PATHS
    simp
  · show (0 : ℤ) ≤ 0
    exact le_refl 0
  · intro hfalse
    exact Bool.noConfusion hfalse

theorem iterate_batch_iter_count (rexp rsqrt : R → R) (Z : ℕ → R) (n : ℕ)
    (s : SimulationState R) :
    ((batch_iter rexp rsqrt Z)^[n] s).simulation_count
      = s.simulation_count + n := by
  induction n with
  | zero => simp
  | succ n ih =>
    rw [Function.iterate_succ_apply', batch_iter_simulation_count, ih]
    push_cast
    ring

theorem run_simulation_batch_count (rexp rsqrt : R → R) (Z : ℕ → R) (b : ℤ)
    (s : SimulationState R) :
    (run_simulation_batch rexp rsqrt Z b s).simulation_count
      = s.simulation_count + b.toNat := by
  show ((batch_iter rexp rsqrt Z)^[b.toNat] s).simulation_count = _
  exact iterate_batch_iter_count rexp rsqrt Z b.toNat s

theorem run_batches_count_le (rexp rsqrt : R → R) (Z : ℕ → R) (bs : List ℤ)
    (s : SimulationState R) :
    s.simulation_count ≤ (run_batches rexp rsqrt Z bs s).simulation_count := by
  induction bs generalizing s with
  | nil => exact le_refl _
  | cons b bs ih =>
    refine le_trans ?_ (ih (run_simulation_batch rexp rsqrt Z b s))
    rw [run_simulation_batch_count]
    omega

/-- C2 (code-bug demonstration): right after initialization the observable
option price is 0 and the count is 0; `run_simulation_batch 0` performs
zero loop iterations, yet line 241 still recomputes the running price,
dividing the payoff sum 0.0 by the simulation count 0 — the stored price
becomes NaN (`none`), so the observable state is changed and the
division is not guarded. -/
theorem run_batch_zero_divides_by_zero :
    get_option_price
        (init_simulation (R := ℚ) id id id id 1 1 0 0 0 0 0 1 1 1 zero_state)
      = some 0 ∧
    get_simulation_count
        (run_simulation_batch id id (fun _ => 0) 0
          (init_simulation (R := ℚ) id id id id 1 1 0 0 0 0 0 1 1 1
            zero_state))
      = 0 ∧
    get_option_price
        (run_simulation_batch id id (fun _ => 0) 0
          (init_simulation (R := ℚ) id id id id 1 1 0 0 0 0 0 1 1 1
            zero_state))
      = none :=
  ⟨rfl, rfl, rfl⟩

/-- C3: after `initialize_simulation` followed by any chunking of
`run_simulation_batch` calls, the phase flag equals
`decide (count < 1000)` — TRACKING exactly for counts below the limit,
FAST exactly from 1000 on — and the count never decreases under further
batches, so the transition fires in the batch that reaches 1000 and is
irreversible until the next initialization. -/
theorem tracking_phase_iff_count_lt_limit (e1 l1 f1 q1 rexp rsqrt : R → R)
    (Z : ℕ → R) (S0 v0 r theta kappa xi rho T K : R) (N : ℕ)
    (s0 : SimulationState R) (bs bs2 : List ℤ) :
    is_tracking_phase
        (run_batches rexp rsqrt Z bs
          (init_simulation e1 l1 f1 q1 S0 v0 r theta kappa xi rho T K N s0))
      = decide
          (get_simulation_count
              (run_batches rexp rsqrt Z bs
                (init_simulation e1 l1 f1 q1 S0 v0 r theta kappa xi rho T K N
                  s0))
            < PERCENTILE_TRACKING_LIMIT) ∧
    get_simulation_count
        (run_batches rexp rsqrt Z bs
          (init_simulation e1 l1 f1 q1 S0 v0 r theta kappa xi rho T K N s0))
      ≤ get_simulation_count
          (run_batches rexp rsqrt Z bs2
            (run_batches rexp rsqrt Z bs
              (init_simulation e1 l1 f1 q1 S0 v0 r theta kappa xi rho T K N
                s0))) :=
  ⟨(run_batches_inv rexp rsqrt Z bs _
      (init_simulation_inv e1 l1 f1 q1 S0 v0 r theta kappa xi rho T K N s0)).1,
    run_batches_count_le rexp rsqrt Z bs2 _⟩

/-- C10: in any state reached by an initialization followed by batches
that has left the TRACKING phase with a nonempty stored cohort, all five
percentile indices are strictly below the number of stored paths, so the
lookups performed by `get_percentile_path` stay within the cohort. -/
theorem percentile_indices_in_bounds (e1 l1 f1 q1 rexp rsqrt : R → R)
    (Z : ℕ → R) (S0 v0 r theta kappa xi rho T K : R) (N : ℕ)
    (s0 : SimulationState R) (bs : List ℤ)
    (hfast : (run_batches rexp rsqrt Z bs
        (init_simulation e1 l1 f1 q1 S0 v0 r theta kappa xi rho T K N
          s0)).tracking_phase
      = false)
    (hpos : 0 < (run_batches rexp rsqrt Z bs
        (init_simulation e1 l1 f1 q1 S0 v0 r theta kappa xi rho T K N
          s0)).all_paths.length) :
    (run_batches rexp rsqrt Z bs
        (init_simulation e1 l1 f1 q1 S0 v0 r theta kappa xi rho T K N
          s0)).min_idx
      < (run_batches rexp rsqrt Z bs
          (init_simulation e1 l1 f1 q1 S0 v0 r theta kappa xi rho T K N
            s0)).all_paths.length ∧
    (run_batches rexp rsqrt Z bs
        (init_simulation e1 l1 f1 q1 S0 v0 r theta kappa xi rho T K N
          s0)).p25_idx
      < (run_batches rexp rsqrt Z bs
          (init_simulation e1 l1 f1 q1 S0 v0 r theta kappa xi rho T K N
            s0)).all_paths.length ∧
    (run_batches rexp rsqrt Z bs
        (init_simulation e1 l1 f1 q1 S0 v0 r theta kappa xi rho T K N
          s0)).p50_idx
      < (run_batches rexp rsqrt Z bs
          (init_simulation e1 l1 f1 q1 S0 v0 r theta kappa xi rho T K N
            s0)).all_paths.length ∧
    (run_batches rexp rsqrt Z bs
        (init_simulation e1 l1 f1 q1 S0 v0 r theta kappa xi rho T K N
          s0)).p75_idx
      < (run_batches rexp rsqrt Z bs
          (init_simulation e1 l1 f1 q1 S0 v0 r theta kappa xi rho T K N
            s0)).all_paths.length ∧
    (run_batches rexp rsqrt Z bs
        (init_simulation e1 l1 f1 q1 S0 v0 r theta kappa xi rho T K N
          s0)).max_idx
      < (run_batches rexp rsqrt Z bs
          (init_simulation e1 l1 f1 q1 S0 v0 r theta kappa xi rho T K N
            s0)).all_paths.length := by
  obtain ⟨-, -, -, h4⟩ := run_batches_inv rexp rsqrt Z bs _
    (init_simulation_inv e1 l1 f1 q1 S0 v0 r theta kappa xi rho T K N s0)
  obtain ⟨i1, i2, i3, i4, i5⟩ := h4 hfast
  refine ⟨?_, ?_, ?_, ?_, ?_⟩
  · rw [i1]
    omega
  · rw [i2]
    omega
  · rw [i3]
    omega
  · rw [i4]
    omega
  · rw [i5]
    omega

/-- C10 witness: the concrete run `initialize; runBatch 1000` over `ℚ`
with identity transcendental stubs leaves the tracking phase with 1000
stored paths, and all five indices are in bounds. -/
theorem percentile_indices_in_bounds_witness :
    (run_batches (R := ℚ) id id (fun _ => 0) [1000]
        (init_simulation id id id id 1 1 0 0 0 0 0 1 1 1 zero_state)).min_idx
      < (run_batches (R := ℚ) id id (fun _ => 0) [1000]
          (init_simulation id id id id 1 1 0 0 0 0 0 1 1 1
            zero_state)).all_paths.length ∧
    (run_batches (R := ℚ) id id (fun _ => 0) [1000]
        (init_simulation id id id id 1 1 0 0 0 0 0 1 1 1 zero_state)).p25_idx
      < (run_batches (R := ℚ) id id (fun _ => 0) [1000]
          (init_simulation id id id id 1 1 0 0 0 0 0 1 1 1
            zero_state)).all_paths.length ∧
    (run_batches (R := ℚ) id id (fun _ => 0) [1000]
        (init_simulation id id id id 1 1 0 0 0 0 0 1 1 1 zero_state)).p50_idx
      < (run_batches (R := ℚ) id id (fun _ => 0) [1000]
          (init_simulation id id id id 1 1 0 0 0 0 0 1 1 1
            zero_state)).all_paths.length ∧
    (run_batches (R := ℚ) id id (fun _ => 0) [1000]
        (init_simulation id id id id 1 1 0 0 0 0 0 1 1 1 zero_state)).p75_idx
      < (run_batches (R := ℚ) id id (fun _ => 0) [1000]
          (init_simulation id id id id 1 1 0 0 0 0 0 1 1 1
            zero_state)).all_paths.length ∧
    (run_batches (R := ℚ) id id (fun _ => 0) [1000]
        (init_simulation id id id id 1 1 0 0 0 0 0 1 1 1 zero_state)).max_idx
      < (run_batches (R := ℚ) id id (fun _ => 0) [1000]
          (init_simulation id id id id 1 1 0 0 0 0 0 1 1 1
            zero_state)).all_paths.length := by
  have hInv := run_batches_inv (R := ℚ) id id (fun _ => 0) [1000]
    (init_simulation id id id id 1 1 0 0 0 0 0 1 1 1 zero_state)
    (init_simulation_inv id id id id 1 1 0 0 0 0 0 1 1 1 zero_state)
  have hcount : (run_batches (R := ℚ) id id (fun _ => 0) [1000]
      (init_simulation id id id id 1 1 0 0 0 0 0 1 1 1
        zero_state)).simulation_count = 1000 := by
    show (run_simulation_batch (R := ℚ) id id (fun _ => 0) 1000
      (init_simulation id id id id 1 1 0 0 0 0 0 1 1 1
        zero_state)).simulation_count = 1000
    rw [run_simulation_batch_count]
    decide
  have h1 := hInv.1
  rw [hcount] at h1
  have h2 := hInv.2.1
  rw [hcount] at h2
  exact percentile_indices_in_bounds id id id id id id (fun _ => 0)
    1 1 0 0 0 0 0 1 1 1 zero_state [1000] (h1.trans (by decide))
    (lt_of_lt_of_eq (by decide) h2.symm)

/-- When the tracking-exit condition holds for the post-storage state `w`,
the state after `bump_after_exit` carries the documented percentile index
formulas, and the terminal prices at the five indices ascend. -/
theorem bump_after_exit_spec (w : SimulationState R) (c : ℕ)
    (hge : PERCENTILE_TRACKING_LIMIT - 1 ≤ w.simulation_count) :
    ((bump_after_exit w c).tracking_phase = false ∧
      (bump_after_exit w c).min_idx = 0 ∧
      (bump_after_exit w c).p25_idx
        = (bump_after_exit w c).all_paths.length / 4 ∧
      (bump_after_exit w c).p50_idx
        = (bump_after_exit w c).all_paths.length / 2 ∧
      (bump_after_exit w c).p75_idx
        = 3 * (bump_after_exit w c).all_paths.length / 4 ∧
      (bump_after_exit w c).max_idx
        = (bump_after_exit w c).all_paths.length - 1) ∧
    (0 < (bump_after_exit w c).all_paths.length →
      ((bump_after_exit w c).all_paths.getD
            (bump_after_exit w c).min_idx ⟨[], 0⟩).final_price
          ≤ ((bump_after_exit w c).all_paths.getD
              (bump_after_exit w c).p25_idx ⟨[], 0⟩).final_price ∧
        ((bump_after_exit w c).all_paths.getD
            (bump_after_exit w c).p25_idx ⟨[], 0⟩).final_price
          ≤ ((bump_after_exit w c).all_paths.getD
              (bump_after_exit w c).p50_idx ⟨[], 0⟩).final_price ∧
        ((bump_after_exit w c).all_paths.getD
            (bump_after_exit w c).p50_idx ⟨[], 0⟩).final_price
          ≤ ((bump_after_exit w c).all_paths.getD
              (bump_after_exit w c).p75_idx ⟨[], 0⟩).final_price ∧
        ((bump_after_exit w c).all_paths.getD
            (bump_after_exit w c).p75_idx ⟨[], 0⟩).final_price
          ≤ ((bump_after_exit w c).all_paths.getD
              (bump_after_exit w c).max_idx ⟨[], 0⟩).final_price) := by
  obtain ⟨f1, f2, f3, f4, f5, f6, f7⟩ := tracking_exit_check_fires w hge
  have hall : (bump_after_exit w c).all_paths = sort_paths w.all_paths := f2
  have htrk : (bump_after_exit w c).tracking_phase = false := f1
  have hmin : (bump_after_exit w c).min_idx = 0 := f3
  have hp25 : (bump_after_exit w c).p25_idx
      = (sort_paths w.all_paths).length / 4 := f4
  have hp50 : (bump_after_exit w c).p50_idx
      = (sort_paths w.all_paths).length / 2 := f5
  have hp75 : (bump_after_exit w c).p75_idx
      = 3 * (sort_paths w.all_paths).length / 4 := f6
  have hmax : (bump_after_exit w c).max_idx
      = (sort_paths w.all_paths).length - 1 := f7
  have hsorted := sort_paths_sorted (R := R) w.all_paths
  constructor
  · refine ⟨htrk, hmin, ?_, ?_, ?_, ?_⟩
    · rw [hp25, hall]
    · rw [hp50, hall]
    · rw [hp75, hall]
    · rw [hmax, hall]
  · intro hpos
    rw [hall] at hpos
    refine ⟨?_, ?_, ?_, ?_⟩
    · rw [hall, hmin, hp25]
      exact sorted_getD_final_price_mono _ hsorted (by omega) (by omega)
    · rw [hall, hp25, hp50]
      exact sorted_getD_final_price_mono _ hsorted (by omega) (by omega)
    · rw [hall, hp50, hp75]
      exact sorted_getD_final_price_mono _ hsorted (by omega) (by omega)
    · rw [hall, hp75, hmax]
      exact sorted_getD_final_price_mono _ hsorted (by omega) (by omega)

/-- C6: when an iteration of the batch loop fires the TRACKING→FAST
transition (phase still TRACKING with the pre-increment count at the
limit boundary), the resulting state has percentile indices
`0, M/4, M/2, 3M/4, M-1` over the sorted stored cohort of size `M`, and
for a nonempty cohort the terminal prices at those five indices are
ascending. -/
theorem transition_percentile_indices (rexp rsqrt : R → R) (Z : ℕ → R)
    (s u : SimulationState R)
    (heq : u = batch_iter rexp rsqrt Z s)
    (ht : s.tracking_phase = true)
    (hlt : s.simulation_count < PERCENTILE_TRACKING_LIMIT)
    (hge : PERCENTILE_TRACKING_LIMIT - 1 ≤ s.simulation_count) :
    ((u.tracking_phase = false ∧
      u.min_idx = 0 ∧
      u.p25_idx = u.all_paths.length / 4 ∧
      u.p50_idx = u.all_paths.length / 2 ∧
      u.p75_idx = 3 * u.all_paths.length / 4 ∧
      u.max_idx = u.all_paths.length - 1) ∧
    (0 < u.all_paths.length →
      (u.all_paths.getD u.min_idx ⟨[], 0⟩).final_price
          ≤ (u.all_paths.getD u.p25_idx ⟨[], 0⟩).final_price ∧
        (u.all_paths.getD u.p25_idx ⟨[], 0⟩).final_price
          ≤ (u.all_paths.getD u.p50_idx ⟨[], 0⟩).final_price ∧
        (u.all_paths.getD u.p50_idx ⟨[], 0⟩).final_price
          ≤ (u.all_paths.getD u.p75_idx ⟨[], 0⟩).final_price ∧
        (u.all_paths.getD u.p75_idx ⟨[], 0⟩).final_price
          ≤ (u.all_paths.getD u.max_idx ⟨[], 0⟩).final_price)) := by
  subst heq
  unfold batch_iter
  rw [if_pos (And.intro ht hlt)]
  exact bump_after_exit_spec
    { store_path (simulate_single_path rexp rsqrt s.S0 s.v0 s.r s.theta
        s.kappa s.xi s.rho s.T s.N (fun k => Z (s.draw_cursor + k))) s with
      total_payoffs :=
        (store_path (simulate_single_path rexp rsqrt s.S0 s.v0 s.r s.theta
          s.kappa s.xi s.rho s.T s.N
          (fun k => Z (s.draw_cursor + k))) s).total_payoffs
          + max ((simulate_single_path rexp rsqrt s.S0 s.v0 s.r s.theta
              s.kappa s.xi s.rho s.T s.N
              (fun k => Z (s.draw_cursor + k))).getD s.N 0 - s.K) 0 }
    (s.draw_cursor + 2 * s.N)
    (by simpa [store_path_simulation_count] using hge)

/-- C6 witness: the transition fired from a concrete state at count 999
with cohort `[5, 3]` plus the freshly simulated path (terminal 4) yields
indices 0, 0, 1, 2, 2 over the sorted cohort `[3, 4, 5]` and an ascending
chain of terminal prices. -/
theorem transition_percentile_indices_witness :
    (pre_transition_state.tracking_phase = true ∧
      pre_transition_state.simulation_count < PERCENTILE_TRACKING_LIMIT ∧
      PERCENTILE_TRACKING_LIMIT - 1
        ≤ pre_transition_state.simulation_count) ∧
    ((post_transition_state.tracking_phase = false ∧
      post_transition_state.min_idx = 0 ∧
      post_transition_state.p25_idx
        = post_transition_state.all_paths.length / 4 ∧
      post_transition_state.p50_idx
        = post_transition_state.all_paths.length / 2 ∧
      post_transition_state.p75_idx
        = 3 * post_transition_state.all_paths.length / 4 ∧
      post_transition_state.max_idx
        = post_transition_state.all_paths.length - 1) ∧
    (0 < post_transition_state.all_paths.length →
      (post_transition_state.all_paths.getD
          post_transition_state.min_idx ⟨[], 0⟩).final_price
          ≤ (post_transition_state.all_paths.getD
              post_transition_state.p25_idx ⟨[], 0⟩).final_price ∧
        (post_transition_state.all_paths.getD
            post_transition_state.p25_idx ⟨[], 0⟩).final_price
          ≤ (post_transition_state.all_paths.getD
              post_transition_state.p50_idx ⟨[], 0⟩).final_price ∧
        (post_transition_state.all_paths.getD
            post_transition_state.p50_idx ⟨[], 0⟩).final_price
          ≤ (post_transition_state.all_paths.getD
              post_transition_state.p75_idx ⟨[], 0⟩).final_price ∧
        (post_transition_state.all_paths.getD
            post_transition_state.p75_idx ⟨[], 0⟩).final_price
          ≤ (post_transition_state.all_paths.getD
              post_transition_state.max_idx ⟨[], 0⟩).final_price)) :=
  ⟨⟨rfl, by decide, by decide⟩,
    transition_percentile_indices id id (fun _ => 0) pre_transition_state
      post_transition_state rfl rfl (by decide) (by decide)⟩

/-- C9: `get_percentile_path` returns the stored trajectory at the
corresponding percentile index exactly when the run has left the TRACKING
phase, the stored cohort is nonempty, and the requested percentile is one
of 0, 25, 50, 75, 100; in every other case it returns `none` (the NULL
"not available" result).  The accessor reads the state without mutating
it. -/
theorem get_percentile_path_spec (s : SimulationState R) (p : ℤ) :
    (s.tracking_phase = true → get_percentile_path s p = none) ∧
    (s.all_paths.length = 0 → get_percentile_path s p = none) ∧
    (p ≠ 0 ∧ p ≠ 25 ∧ p ≠ 50 ∧ p ≠ 75 ∧ p ≠ 100 →
      get_percentile_path s p = none) ∧
    (s.tracking_phase = false → 0 < s.all_paths.length →
      get_percentile_path s 0
          = some ((s.all_paths.getD s.min_idx ⟨[], 0⟩).path) ∧
        get_percentile_path s 25
          = some ((s.all_paths.getD s.p25_idx ⟨[], 0⟩).path) ∧
        get_percentile_path s 50
          = some ((s.all_paths.getD s.p50_idx ⟨[], 0⟩).path) ∧
        get_percentile_path s 75
          = some ((s.all_paths.getD s.p75_idx ⟨[], 0⟩).path) ∧
        get_percentile_path s 100
          = some ((s.all_paths.getD s.max_idx ⟨[], 0⟩).path)) := by
  refine ⟨?_, ?_, ?_, ?_⟩
  · intro ht
    unfold get_percentile_path
    rw [if_neg]
    intro hc
    rw [ht] at hc
    exact Bool.noConfusion hc.1
  · intro hlen
    unfold get_percentile_path
    rw [if_neg]
    intro hc
    omega
  · intro hne
    obtain ⟨n0, n25, n50, n75, n100⟩ := hne
    unfold get_percentile_path
    split
    · split
      · exact absurd rfl n0
      · exact absurd rfl n25
      · exact absurd rfl n50
      · exact absurd rfl n75
      · exact absurd rfl n100
      · rfl
    · rfl
  · intro htf hpos
    refine ⟨?_, ?_, ?_, ?_, ?_⟩ <;> simp [get_percentile_path, htf, hpos]

/-- C9 witness: on a concrete FAST state with one stored path, percentile
25 returns the stored trajectory and the unrecognized percentile 7
returns the "not available" result. -/
theorem get_percentile_path_spec_witness :
    (fast_state.tracking_phase = false ∧ 0 < fast_state.all_paths.length) ∧
    get_percentile_path fast_state 25 = some [1, 2] ∧
    get_percentile_path fast_state 7 = none := by
  refine ⟨⟨rfl, by decide⟩, ?_, ?_⟩
  · have h := ((get_percentile_path_spec fast_state 25).2.2.2 rfl
      (by decide)).2.1
    rw [h]
    rfl
  · exact (get_percentile_path_spec fast_state 7).2.2.1
      (by refine ⟨?_, ?_, ?_, ?_, ?_⟩ <;> decide)

end DriverTheorems

end Heston
